import Mathlib

/-
Verification of model-layer logic of the aiidalab-qe application.

Each Python model class is shallowly embedded as a Lean structure holding its
traits (reactive attributes), plus any plain instance attributes the methods
touch.  Python floats carry exact decimal constants that are only copied
around (never computed with) by the code under study, so they are embedded as
rationals.  Python dictionaries produced and consumed by the form layer are
embedded as records with `Option` fields (a missing key is `none`, matching
`dict.get(key, default)`), or as association lists when keys are data.
Raising code is embedded as functions returning the mutated-so-far state
together with an optional exception.
-/

/-! ## Shared structure data

`orm.StructureData` is external; the models only query its kind names /
kinds (`get_kind_names`, `kinds`, each kind exposing `symbol`). -/

structure StructureData where
  kind_names : List String
deriving Repr, DecidableEq

/-! ## PdosModel (plugins/pdos/model.py) -/

/-- Traits of `PdosModel` relevant to (de)serialization, together with the
plain attribute `nscf_kpoints_distance` that `set_model_state` creates on the
instance (it is not a declared trait; `none` models "attribute absent"). -/
structure PdosModel where
  kpoints_distance : ℚ
  use_pdos_degauss : Bool
  pdos_degauss : ℚ
  nscf_kpoints_distance : Option ℚ
deriving Repr, DecidableEq

/-- Default value of the `kpoints_distance` trait (`tl.Float(0.1)`). -/
def PdosModel.kpoints_distance_default : ℚ := 1/10

/-- Default value of the `pdos_degauss` trait (`tl.Float(0.005)`). -/
def PdosModel.pdos_degauss_default : ℚ := 5/1000

/-- Dictionary passed to / returned by the Pdos model state methods.
Fields are `Option` because `set_model_state` reads keys with
`parameters.get(key, default)`. -/
structure PdosParameters where
  nscf_kpoints_distance : Option ℚ
  use_pdos_degauss : Option Bool
  pdos_degauss : Option ℚ
deriving Repr, DecidableEq

/-- `PdosModel.get_model_state`: exports the `kpoints_distance` trait under
the key `nscf_kpoints_distance`, and the two degauss traits under their own
names. -/
def PdosModel.get_model_state (m : PdosModel) : PdosParameters :=
  { nscf_kpoints_distance := some m.kpoints_distance
    use_pdos_degauss := some m.use_pdos_degauss
    pdos_degauss := some m.pdos_degauss }

/-- `PdosModel.set_model_state`: the source assigns
`self.nscf_kpoints_distance = parameters.get("nscf_kpoints_distance", ...)`,
which creates a plain attribute named `nscf_kpoints_distance` on the
instance; the declared trait `kpoints_distance` is never written. -/
def PdosModel.set_model_state (m : PdosModel) (parameters : PdosParameters) :
    PdosModel :=
  { m with
    nscf_kpoints_distance :=
      some (parameters.nscf_kpoints_distance.getD PdosModel.kpoints_distance_default)
    use_pdos_degauss := parameters.use_pdos_degauss.getD false
    pdos_degauss := parameters.pdos_degauss.getD PdosModel.pdos_degauss_default }

/-! ## MagnetizationModel (configuration/advanced/magnetization/model.py) -/

/-- Traits and `_defaults` store of `MagnetizationModel` relevant to
`update`. -/
structure MagnetizationModel where
  input_structure : Option StructureData
  spin_type : String
  moments : List (String × ℚ)
  defaults_moments : List (String × ℚ)
deriving Repr, DecidableEq

/-- `MagnetizationModel._update_defaults`: empties the default moments when
`spin_type == "none"` or there is no structure, otherwise maps every kind
name of the structure to `0.0`. -/
def MagnetizationModel._update_defaults (m : MagnetizationModel) :
    MagnetizationModel :=
  if m.spin_type = "none" ∨ m.input_structure = none then
    { m with defaults_moments := [] }
  else
    { m with
      defaults_moments :=
        (m.input_structure.map StructureData.kind_names).getD [] |>.map
          fun symbol => (symbol, (0 : ℚ)) }

/-- `MagnetizationModel._get_default_moments`: a deep copy of the stored
defaults (copying is the identity on immutable Lean data). -/
def MagnetizationModel._get_default_moments (m : MagnetizationModel) :
    List (String × ℚ) :=
  m.defaults_moments

/-- `MagnetizationModel.update`: refresh the defaults, then assign the
`moments` trait from them. -/
def MagnetizationModel.update (m : MagnetizationModel) : MagnetizationModel :=
  let m1 := m._update_defaults
  { m1 with moments := m1._get_default_moments }

/-! ## App (app/main.py) -/

/-- Arbitrary configuration parameters dictionary; its content is opaque to
the wiring logic studied here. -/
structure UiParameters where
  raw : List (String × String)
deriving Repr, DecidableEq

/-- State of the `App` widget: the wizard step models it wires together.
`structure_confirmed` and `configure_confirmed` are the `confirmed` traits of
the structure and configuration models; the structure and configuration
steps implement `is_saved()` as exactly that trait.  `submit_saved` and
`results_saved` stand for the `is_saved()` results of the remaining two
wizard steps (they are never consulted by `_update_blockers`, which slices
`self.steps[:2]`). -/
structure App where
  structure_confirmed : Bool
  configure_confirmed : Bool
  submit_saved : Bool
  results_saved : Bool
  structure_input_structure : Option StructureData
  configure_input_structure : Option StructureData
  submit_input_structure : Option StructureData
  configure_model_state : UiParameters
  submit_input_parameters : UiParameters
  external_submission_blockers : List String
deriving Repr, DecidableEq

/-- Titles of the wizard steps, in order, paired with each step's
`is_saved()` result (`App.steps`). -/
def App.steps (a : App) : List (String × Bool) :=
  [("Select structure", a.structure_confirmed),
   ("Configure workflow", a.configure_confirmed),
   ("Choose computational resources", a.submit_saved),
   ("Status & Results", a.results_saved)]

/-- The f-string built by `App._update_blockers` for an unsaved step. -/
def App.blockerMessage (title : String) : String :=
  "Unsaved changes in the <b>" ++ title ++
    "</b> step. Please confirm the changes before submitting."

/-- `App._update_blockers`: assigns to
`submit_model.external_submission_blockers` the list of blocker messages of
the unsaved steps among `self.steps[:2]`. -/
def App._update_blockers (a : App) : App :=
  { a with
    external_submission_blockers :=
      ((a.steps.take 2).filter fun st => !st.2).map fun st =>
        App.blockerMessage st.1 }

/-- `App._on_structure_confirmation_change`: forwards (or clears) the
structure to the configuration model, then re-runs `_update_blockers`. -/
def App._on_structure_confirmation_change (a : App) : App :=
  let a1 :=
    if a.structure_confirmed then
      { a with configure_input_structure := a.structure_input_structure }
    else
      { a with configure_input_structure := none }
  a1._update_blockers

/-- `App._on_configuration_confirmation_change`: forwards (or clears) the
structure and parameters to the submission model, then re-runs
`_update_blockers`. -/
def App._on_configuration_confirmation_change (a : App) : App :=
  let a1 :=
    if a.configure_confirmed then
      { a with
        submit_input_structure := a.structure_input_structure
        submit_input_parameters := a.configure_model_state }
    else
      { a with
        submit_input_structure := none
        submit_input_parameters := ⟨[]⟩ }
  a1._update_blockers

/-! ## ResultsModel (app/result/model.py) -/

/-- A calc-job descendant of a process node: `isinstance(_, CalcJobNode)`
discrimination plus the fields read by the summary component. -/
structure CalcJobNode where
  is_finished : Bool
  exit_message : Option String
deriving Repr, DecidableEq

/-- A called descendant of a work chain: either a calc job or some other
process node (sub work chain, calc function, ...). -/
inductive Descendant where
  | calcjob (c : CalcJobNode)
  | other
deriving Repr, DecidableEq

/-- A persisted process node, with the fields the result components read.
`exit_status` is `none` while the process has not terminated;
`workchain_report` stands for `get_workchain_report(node, "REPORT")`. -/
structure ProcessNode where
  exit_status : Option Int
  called_descendants : List Descendant
  workchain_report : String
deriving Repr, DecidableEq

/-- The workflow engine's database, as the partial map `uuid ↦ node` that
`orm.load_node` queries. -/
def Database : Type := String → Option ProcessNode

/-- Errors raised by the embedded Python code. -/
inductive PyError where
  | notExistent
  | attributeError
  | unboundLocal
deriving Repr, DecidableEq

/-- `orm.load_node`: returns the node stored under the uuid or raises
`NotExistent`. -/
def load_node (db : Database) (uuid : String) : Except PyError ProcessNode :=
  match db uuid with
  | some node => .ok node
  | none => .error .notExistent

/-- Trait state of `ResultsModel` used by `get_process_node`.  The
`process_uuid` trait is `tl.Unicode(allow_none=True)`: it may be `None` or a
(possibly empty) string; Python truthiness treats both `None` and `""` as
unset. -/
structure ResultsModel where
  process_uuid : Option String
deriving Repr, DecidableEq

/-- Python truthiness of the `process_uuid` trait. -/
def ResultsModel.uuid_truthy (m : ResultsModel) : Bool :=
  match m.process_uuid with
  | none => false
  | some u => u != ""

/-- `ResultsModel.get_process_node`:
`try: return load_node(uuid) if uuid else None except NotExistent: return None`.
The `except` clause catches exactly `NotExistent`; any other exception would
propagate (`.error`). -/
def ResultsModel.get_process_node (db : Database) (m : ResultsModel) :
    Except PyError (Option ProcessNode) :=
  let attempt : Except PyError (Option ProcessNode) :=
    if m.uuid_truthy then
      (load_node db (m.process_uuid.getD "")).map some
    else
      .ok none
  match attempt with
  | .ok r => .ok r
  | .error .notExistent => .ok none
  | .error e => .error e

/-! ## WorkChainSummaryModel (app/result/components/summary/model.py) -/

/-- Python truthiness of `process_node.exit_status` (an optional integer):
falsy when `None` or `0`. -/
def exitStatusTruthy : Option Int → Bool
  | none => false
  | some k => k != 0

/-- The finished-calc-job filter of `_get_final_calcjob`
(`isinstance(process, orm.CalcJobNode) and process.is_finished`). -/
def finishedCalcjob : Descendant → Option CalcJobNode
  | .calcjob c => if c.is_finished then some c else none
  | .other => none

/-- `WorkChainSummaryModel._get_final_calcjob`: indexes `[-1]` into the list
of finished calc jobs among the called descendants, returning `None` on
`IndexError` (empty list). -/
def WorkChainSummaryModel._get_final_calcjob (node : ProcessNode) :
    Option CalcJobNode :=
  (node.called_descendants.filterMap finishedCalcjob).getLast?

/-- Trait state of `WorkChainSummaryModel` touched by
`generate_failure_report`.  The `failed_calculation_report` trait holds the
jinja render of the failure template; the render itself is external, so the
embedding carries the render function as a parameter of the method. -/
structure WorkChainSummaryModel where
  failed_calculation_report : String
  has_failure_report : Bool
deriving Repr, DecidableEq

/-- `WorkChainSummaryModel.generate_failure_report`.  `render reportText
exitMessage` stands for the jinja template render with those two dynamic
arguments (`process_report` and `calcjob_exit_message`; the style sheet is a
constant).  When the process node is missing or its exit status is falsy the
method returns early.  Otherwise it reads `final_calcjob.exit_message`,
which raises `AttributeError` when `_get_final_calcjob` returned `None`. -/
def WorkChainSummaryModel.generate_failure_report
    (render : String → Option String → String)
    (fetched_node : Option ProcessNode) (m : WorkChainSummaryModel) :
    Except PyError WorkChainSummaryModel :=
  match fetched_node with
  | none => .ok m
  | some node =>
    if exitStatusTruthy node.exit_status then
      match WorkChainSummaryModel._get_final_calcjob node with
      | none => .error .attributeError
      | some cj =>
        .ok { m with
              failed_calculation_report :=
                render node.workchain_report cj.exit_message
              has_failure_report := true }
    else
      .ok m

/-- A finished calc job, in the words of the claim: the LAST element of the
called descendants that is a finished `CalcJobNode` (first hit scanning from
the right). -/
def lastFinishedCalcjob (node : ProcessNode) : Option CalcJobNode :=
  node.called_descendants.reverse.findSome? finishedCalcjob

/-! ## StructureSelectionStep (app/structure/__init__.py) -/

/-- `WizardAppWidgetStep.State` of the wizard framework (only the values the
step assigns or compares against matter here). -/
inductive WizardState where
  | INIT
  | READY
  | CONFIGURED
  | ACTIVE
  | SUCCESS
  | FAIL
deriving Repr, DecidableEq

/-- Traits of `StructureStepModel` driving `_update_state`. -/
structure StructureStepModel where
  confirmed : Bool
  input_structure : Option StructureData
deriving Repr, DecidableEq

/-- Widget state of `StructureSelectionStep`: its wizard `state` trait. -/
structure StructureSelectionStep where
  state : WizardState
deriving Repr, DecidableEq

/-- `StructureSelectionStep._update_state`: `SUCCESS` when the model is
confirmed, else `READY` without a structure, else `CONFIGURED`. -/
def StructureSelectionStep._update_state (model : StructureStepModel)
    (step : StructureSelectionStep) : StructureSelectionStep :=
  if model.confirmed then
    { step with state := .SUCCESS }
  else if model.input_structure = none then
    { step with state := .READY }
  else
    { step with state := .CONFIGURED }

/-- `StructureSelectionStep._on_input_structure_change`: observer of the
model's `input_structure` trait; updates the widget text (no effect on the
`state` trait) and re-runs `_update_state`. -/
def StructureSelectionStep._on_input_structure_change
    (model : StructureStepModel) (step : StructureSelectionStep) :
    StructureSelectionStep :=
  StructureSelectionStep._update_state model step

/-- `StructureSelectionStep._on_confirmation_change`: observer of the
model's `confirmed` trait; re-runs `_update_state`. -/
def StructureSelectionStep._on_confirmation_change
    (model : StructureStepModel) (step : StructureSelectionStep) :
    StructureSelectionStep :=
  StructureSelectionStep._update_state model step

/-- The dlink transform wiring the step's `state` trait to the confirm
button: `disabled = (state != State.CONFIGURED)`. -/
def confirm_button_disabled (step : StructureSelectionStep) : Bool :=
  step.state != .CONFIGURED

/-! ## PseudosModel (configuration/advanced/pseudos/model.py) -/

/-- `PSEUDO_HELP_SOC` (the spin-orbit help text; quotation marks of the
original prose are omitted). -/
def PSEUDO_HELP_SOC : String :=
  "<div class=\"pseudo-text\"> Spin-orbit coupling (SOC) calculations are " ++
  "supported exclusively with PseudoDojo pseudopotentials. PseudoDojo " ++
  "offers these pseudopotentials in two versions: standard and stringent. " ++
  "Here, we utilize the FR (fully relativistic) type from PseudoDojo. " ++
  "Please ensure you choose appropriate cutoff values for your " ++
  "calculations. </div>"

/-- `PSEUDO_HELP_WO_SOC` (the non-spin-orbit help text; quotation marks of
the original prose are omitted). -/
def PSEUDO_HELP_WO_SOC : String :=
  "<div class=\"pseudo-text\"> If you are unsure, select SSSP efficiency, " ++
  "which for most calculations will produce sufficiently accurate results " ++
  "at comparatively small computational costs. If your calculations " ++
  "require a higher accuracy, select SSSP accuracy or PseudoDojo " ++
  "stringent, which will be computationally more expensive. SSSP is the " ++
  "standard solid-state pseudopotentials. The PseudoDojo used here has " ++
  "the SR relativistic type. </div>"

/-- The `_defaults` store of `PseudosModel` (only the slots the studied
methods write). -/
structure PseudosDefaults where
  family : String
  functional : String
  library : String
  library_options : List String
  dictionary : List (String × String)
  cutoffs : List ℚ × List ℚ
deriving Repr, DecidableEq

/-- Traits of `PseudosModel`, its `_defaults` store, and the plain instance
attribute `_status_message` that the error branches create (distinct from
the `status_message` trait; `none` models "attribute absent"). -/
structure PseudosModel where
  input_structure : Option StructureData
  protocol : String
  spin_orbit : String
  dictionary : List (String × String)
  family : String
  functional : String
  library : String
  library_options : List String
  cutoffs : List ℚ × List ℚ
  status_message : String
  family_help_message : String
  _status_message : Option String
  defaults : PseudosDefaults
deriving Repr, DecidableEq

/-- Parsed result of `PseudoFamily.from_string` (the parser lives in
`aiidalab_qe.setup.pseudos`, outside the sources under study; only the three
fields read by `update_family_parameters` are kept, and the parse is passed
in as data). -/
structure PseudoFamily where
  library : String
  functional : String
  accuracy : String
deriving Repr, DecidableEq

/-- External collaborators of `update_family_parameters`:
`PwBaseWorkChain.get_protocol_inputs(protocol)["pseudo_family"]` and
`PseudoFamily.from_string`. -/
structure PseudoFamilyOracle where
  protocol_pseudo_family : String → String
  from_string : String → PseudoFamily

/-- `PseudosModel.update_family_parameters`: chooses a pseudo-family string
(hard-wired PseudoDojo FR strings under spin-orbit coupling, the protocol
default otherwise), parses it, and updates the `library` and `functional`
traits and defaults. -/
def PseudosModel.update_family_parameters (oracle : PseudoFamilyOracle)
    (m : PseudosModel) : PseudosModel :=
  let pseudo_family_string :=
    if m.spin_orbit = "soc" then
      if m.protocol = "fast" ∨ m.protocol = "moderate" then
        "PseudoDojo/0.4/PBE/FR/standard/upf"
      else
        "PseudoDojo/0.4/PBE/FR/stringent/upf"
    else
      oracle.protocol_pseudo_family m.protocol
  let pseudo_family := oracle.from_string pseudo_family_string
  let library := pseudo_family.library ++ " " ++ pseudo_family.accuracy
  { m with
    defaults := { m.defaults with
                  library := library
                  functional := pseudo_family.functional }
    library := library
    functional := pseudo_family.functional }

/-- `PseudosModel.update_library_options`: restricts the library options to
the two PseudoDojo entries and shows the SOC help under spin-orbit coupling,
otherwise offers all four libraries with the ordinary help; then calls
`update_family_parameters`. -/
def PseudosModel.update_library_options (oracle : PseudoFamilyOracle)
    (m : PseudosModel) : PseudosModel :=
  let library_options :=
    if m.spin_orbit = "soc" then
      ["PseudoDojo standard", "PseudoDojo stringent"]
    else
      ["SSSP efficiency", "SSSP precision",
       "PseudoDojo standard", "PseudoDojo stringent"]
  let help :=
    if m.spin_orbit = "soc" then PSEUDO_HELP_SOC else PSEUDO_HELP_WO_SOC
  let m1 :=
    { m with
      family_help_message := help
      defaults := { m.defaults with library_options := library_options }
      library_options := library_options }
  m1.update_family_parameters oracle

/-- Outcome of the database fetch at the top of `update_default_pseudos`
(`_get_pseudo_family_from_database` + `get_pseudos`): either the pseudos map
`kind ↦ uuid`, or a `ValueError` with its message. -/
inductive FetchPseudosResult where
  | ok (pseudos : List (String × String))
  | valueError (msg : String)
deriving Repr, DecidableEq

/-- The error div built by `update_default_pseudos` on `ValueError`. -/
def pseudosErrorDiv (msg : String) : String :=
  "<div class=\"alert alert-danger\"> ERROR: " ++ msg ++ " </div>"

/-- `PseudosModel.update_default_pseudos`: on `ValueError` it assigns the
error div to the plain attribute `_status_message` and returns; otherwise it
stores the pseudos map in the defaults and assigns the `dictionary`
trait. -/
def PseudosModel.update_default_pseudos (fetch : FetchPseudosResult)
    (m : PseudosModel) : PseudosModel :=
  match fetch with
  | .valueError msg => { m with _status_message := some (pseudosErrorDiv msg) }
  | .ok pseudos =>
    { m with
      defaults := { m.defaults with dictionary := pseudos }
      dictionary := pseudos }

/-- Outcome of the fetch at the top of `update_default_cutoffs`
(`_get_pseudo_family_from_database` + `get_cutoffs_unit` + `get_cutoffs`):
the cutoffs table (entries `(symbol, (value1, value2))` in the source's
`dict.values()` order, already converted to Ry), a `NotExistent`, or a
`ValueError` raised by the cutoff queries on the fetched family. -/
inductive FetchCutoffsResult where
  | ok (cutoff_dict : List (String × ℚ × ℚ))
  | notExistent
  | valueError (family_repr : String) (msg : String)
deriving Repr, DecidableEq

/-- The error div built by `update_default_cutoffs` on `NotExistent`. -/
def cutoffsNotExistentDiv (family : String) : String :=
  "<div class=\"alert alert-danger\"> ERROR: required pseudo family `" ++
  family ++ "` is not installed. Please use `aiida-pseudo install` to " ++
  "install it.\" </div>"

/-- The error div built by `update_default_cutoffs` on `ValueError`. -/
def cutoffsValueErrorDiv (family : String) (msg : String) : String :=
  "<div class=\"alert alert-danger\"> ERROR: failed to obtain recommended " ++
  "cutoffs for pseudos `" ++ family ++ "`: " ++ msg ++ " </div>"

/-- The per-kind loop of `update_default_cutoffs`: looks each kind symbol up
in the cutoffs table and unpacks `ecutrho, ecutwfc = cutoff.values()`.  A
missing symbol yields the empty dict `{}`, whose unpacking into two names
raises `ValueError`; the first component of the two values is bound to
`ecutrho` and the second to `ecutwfc`, exactly as in the source. -/
def collectCutoffs (cutoff_dict : List (String × ℚ × ℚ)) :
    List String → Except PyError (List ℚ × List ℚ)
  | [] => .ok ([], [])
  | symbol :: rest =>
    match (cutoff_dict.lookup symbol) with
    | none => .error .unboundLocal
    | some (v1, v2) =>
      let ecutrho := v1
      let ecutwfc := v2
      match collectCutoffs cutoff_dict rest with
      | .error e => .error e
      | .ok (wfcs, rhos) => .ok (ecutwfc :: wfcs, ecutrho :: rhos)

/-- `PseudosModel.update_default_cutoffs`.  On `NotExistent` or `ValueError`
the error div is assigned to the plain attribute `_status_message`; the
`else` clause binding `kinds` is then skipped, so the subsequent
`for kind in kinds` raises `UnboundLocalError` with the cutoff traits (and
`status_message`) untouched.  On success the cutoff lists (or `[0.0]` when
empty) are stored in the defaults and the `cutoffs` trait is assigned.  The
result pairs the mutated-so-far state with the exception, if any. -/
def PseudosModel.update_default_cutoffs (fetch : FetchCutoffsResult)
    (m : PseudosModel) : PseudosModel × Option PyError :=
  match fetch with
  | .notExistent =>
    ({ m with _status_message := some (cutoffsNotExistentDiv m.family) },
     some .unboundLocal)
  | .valueError family_repr msg =>
    ({ m with _status_message := some (cutoffsValueErrorDiv family_repr msg) },
     some .unboundLocal)
  | .ok cutoff_dict =>
    let kinds :=
      match m.input_structure with
      | some s => s.kind_names
      | none => []
    match collectCutoffs cutoff_dict kinds with
    | .error e => (m, some e)
    | .ok (ecutwfc_list, ecutrho_list) =>
      let cutoffs :=
        ((if ecutwfc_list = [] then [(0 : ℚ)] else ecutwfc_list),
         (if ecutrho_list = [] then [(0 : ℚ)] else ecutrho_list))
      ({ m with
         defaults := { m.defaults with cutoffs := cutoffs }
         cutoffs := cutoffs },
       none)

/-! ## PseudoUploadWidget (configuration/advanced/pseudos.py) -/

/-- An uploaded pseudopotential node (`UpfData`): the element parsed from
the file content, and the file name it was created with. -/
structure UpfData where
  element : String
  filename : String
deriving Repr, DecidableEq

/-- Traits of `PseudoUploadWidget` touched by `_on_file_upload`, plus the
widget's fixed `element` label and the `value` of its `pseudo_text`
widget. -/
structure PseudoUploadWidget where
  element : String
  pseudo : Option UpfData
  cutoffs : List ℚ
  error_message : Option String
  pseudo_text_value : String
deriving Repr, DecidableEq

/-- The digit-stripping of `_on_file_upload`:
`"".join([i for i in self.element if not i.isdigit()])`. -/
def stripDigits (s : String) : String :=
  String.mk (s.data.filter fun c => !c.isDigit)

/-- The f-string error of `_on_file_upload` on an element mismatch. -/
def uploadMismatchDiv (widget_element pseudo_element : String) : String :=
  "<div class=\"alert alert-danger\"> ERROR: Element " ++ widget_element ++
  " is not matched with the pseudo " ++ pseudo_element ++ "</div>"

/-- `PseudoUploadWidget._reset`: clears `pseudo` and `cutoffs`. -/
def PseudoUploadWidget._reset (w : PseudoUploadWidget) : PseudoUploadWidget :=
  { w with pseudo := none, cutoffs := [] }

/-- `PseudoUploadWidget._on_file_upload`: builds an `UpfData` from the
uploaded content (its element is `uploaded_element`), assigns it to
`pseudo`, then compares the widget's element label (digits stripped) with
the pseudo's element: on mismatch it sets `error_message` and `_reset`s, on
match it writes the file name into `pseudo_text`.  The closing step is the
`pseudo → pseudo_text.value` dlink (`p.filename if p else ""`) firing once
notifications are released. -/
def PseudoUploadWidget._on_file_upload (w : PseudoUploadWidget)
    (filename : String) (uploaded_element : String) : PseudoUploadWidget :=
  let pseudo : UpfData := { element := uploaded_element, filename := filename }
  let w1 := { w with pseudo := some pseudo }
  let element := stripDigits w.element
  let w2 :=
    if element ≠ pseudo.element then
      PseudoUploadWidget._reset
        { w1 with
          error_message := some (uploadMismatchDiv w.element pseudo.element) }
    else
      { w1 with pseudo_text_value := filename }
  { w2 with
    pseudo_text_value :=
      match w2.pseudo with
      | some p => p.filename
      | none => "" }

/-! ## SimplifiedProcessTree nodes (app/result/components/status/tree.py)

The tree widget itself is not among the sources under study (only its test
is), so its expand/collapse behaviour is modelled from the spec: the
simplified process-status tree is a condensed view of a recursively nested
process graph with expand/collapse, where expanding marks a node's branches
container with the `open` class and its toggle icon `minus`, and collapsing
removes `open` and sets the icon to `plus`. -/

/-- Modelled from the spec: a node of the simplified process tree
(`ProcessTreeNode` of `app/result/components/status/tree.py`, missing from
the sources under study).  It carries whether the `open` class is present on
its branches container, its toggle icon, and its branch nodes. -/
inductive TreeNode where
  | node (branchesOpen : Bool) (toggleIcon : String) (branches : List TreeNode)

/-- Whether the `open` class is present on the node's branches container. -/
def TreeNode.branchesOpen : TreeNode → Bool
  | .node o _ _ => o

/-- The node's toggle icon. -/
def TreeNode.toggleIcon : TreeNode → String
  | .node _ i _ => i

/-- The node's branches. -/
def TreeNode.branches : TreeNode → List TreeNode
  | .node _ _ bs => bs

/-- Modelled from the spec: a node is collapsed when its branches container
does not carry the `open` class. -/
def TreeNode.collapsed (n : TreeNode) : Bool :=
  !n.branchesOpen

mutual

/-- Modelled from the spec: recursive expansion (`expand(recursive=True)`,
missing from the sources under study) marks the node open with a `minus`
icon and recurses into every branch. -/
def TreeNode.expandAll : TreeNode → TreeNode
  | .node _ _ bs => .node true "minus" (TreeNode.expandAllList bs)

/-- Recursive expansion of a list of branches. -/
def TreeNode.expandAllList : List TreeNode → List TreeNode
  | [] => []
  | b :: bs => TreeNode.expandAll b :: TreeNode.expandAllList bs

end

mutual

/-- Modelled from the spec: recursive collapse (`collapse(recursive=True)`,
missing from the sources under study) removes the `open` class, sets a
`plus` icon and recurses into every branch. -/
def TreeNode.collapseAll : TreeNode → TreeNode
  | .node _ _ bs => .node false "plus" (TreeNode.collapseAllList bs)

/-- Recursive collapse of a list of branches. -/
def TreeNode.collapseAllList : List TreeNode → List TreeNode
  | [] => []
  | b :: bs => TreeNode.collapseAll b :: TreeNode.collapseAllList bs

end

/-- Modelled from the spec: `expand(recursive)` marks the branches container
`open` and the toggle icon `minus`; with `recursive=True` it applies the
same transition to every branch, recursively. -/
def TreeNode.expand (recursive : Bool) : TreeNode → TreeNode
  | .node _ _ bs =>
    .node true "minus" (if recursive then TreeNode.expandAllList bs else bs)

/-- Modelled from the spec: `collapse(recursive)` removes the `open` class
and sets the toggle icon to `plus`; with `recursive=True` it applies the
same transition to every branch, recursively. -/
def TreeNode.collapse (recursive : Bool) : TreeNode → TreeNode
  | .node _ _ bs =>
    .node false "plus" (if recursive then TreeNode.collapseAllList bs else bs)

mutual

/-- All nodes of a tree: the node itself and all its descendants. -/
def TreeNode.allNodes : TreeNode → List TreeNode
  | .node o i bs => .node o i bs :: TreeNode.allNodesList bs

/-- All nodes of a list of trees. -/
def TreeNode.allNodesList : List TreeNode → List TreeNode
  | [] => []
  | b :: bs => TreeNode.allNodes b ++ TreeNode.allNodesList bs

end

/-! ## Theorems -/

/-- C1: the claimed round trip fails on the code.  Start from a `PdosModel`
whose `kpoints_distance` trait is `0.5`, export its state with
`get_model_state`, change the trait to the default `0.1`, and feed the
exported dictionary back through `set_model_state`: the `kpoints_distance`
trait remains `0.1` instead of being restored to `0.5`, because the restored
value lands in the stray instance attribute `nscf_kpoints_distance`.  The
two degauss traits do round-trip. -/
theorem pdos_set_model_state_drops_kpoints_distance :
    let m0 : PdosModel :=
      { kpoints_distance := 5, use_pdos_degauss := true,
        pdos_degauss := 7, nscf_kpoints_distance := none }
    let m1 : PdosModel := { m0 with kpoints_distance := 2 }
    let m2 := PdosModel.set_model_state m1 (PdosModel.get_model_state m0)
    m2.kpoints_distance = 2 ∧ m2.kpoints_distance ≠ 5 ∧
      m2.nscf_kpoints_distance = some 5 ∧
      m2.use_pdos_degauss = m0.use_pdos_degauss ∧
      m2.pdos_degauss = m0.pdos_degauss := by
  decide

/-- C2: after `MagnetizationModel.update`, the `moments` trait is the empty
dictionary when `spin_type` is `"none"` or there is no input structure, and
otherwise maps exactly each kind name of the input structure to `0.0`. -/
theorem magnetization_update_moments (m : MagnetizationModel) :
    ((m.spin_type = "none" ∨ m.input_structure = none) →
      m.update.moments = []) ∧
    (∀ s : StructureData, m.spin_type ≠ "none" → m.input_structure = some s →
      m.update.moments = s.kind_names.map fun k => (k, (0 : ℚ))) := by
  constructor
  · intro h
    simp [MagnetizationModel.update, MagnetizationModel._update_defaults,
      MagnetizationModel._get_default_moments, h]
  · intro s hspin hstruct
    simp [MagnetizationModel.update, MagnetizationModel._update_defaults,
      MagnetizationModel._get_default_moments, hspin, hstruct]

/-- Witness for C2 at two concrete models: a spin-none model yields empty
moments; a collinear model over a two-kind structure yields a zero moment
per kind. -/
theorem magnetization_update_moments_witness :
    (MagnetizationModel.update
      { input_structure := none, spin_type := "none",
        moments := [("Fe", 3)], defaults_moments := [] }).moments = [] ∧
    (MagnetizationModel.update
      { input_structure := some { kind_names := ["Fe", "O"] },
        spin_type := "collinear", moments := [],
        defaults_moments := [] }).moments = [("Fe", 0), ("O", 0)] :=
  ⟨(magnetization_update_moments _).1 (Or.inl rfl),
   (magnetization_update_moments _).2 { kind_names := ["Fe", "O"] }
     (by decide) rfl⟩

/-- C3: `App._update_blockers` leaves in
`submit_model.external_submission_blockers` exactly one unsaved-changes
message per unsaved step among the first two wizard steps, and an empty list
exactly when both are saved; both confirmation observers
(`_on_structure_confirmation_change`, `_on_configuration_confirmation_change`)
re-run it, so their results satisfy the same characterization. -/
theorem app_update_blockers_spec (a : App) :
    ((App._update_blockers a).external_submission_blockers =
      (if a.structure_confirmed then []
       else [App.blockerMessage "Select structure"]) ++
      (if a.configure_confirmed then []
       else [App.blockerMessage "Configure workflow"])) ∧
    ((App._update_blockers a).external_submission_blockers = [] ↔
      a.structure_confirmed = true ∧ a.configure_confirmed = true) ∧
    ((App._on_structure_confirmation_change a).external_submission_blockers =
      (App._update_blockers a).external_submission_blockers) ∧
    ((App._on_configuration_confirmation_change a).external_submission_blockers =
      (App._update_blockers a).external_submission_blockers) := by
  rcases a with ⟨sc, cc, ss, rs, si, ci, sui, cms, sip, esb⟩
  cases sc <;> cases cc <;>
    simp [App._update_blockers, App.steps, App.blockerMessage,
      App._on_structure_confirmation_change,
      App._on_configuration_confirmation_change]

/-- C4: `ResultsModel.get_process_node` never raises: it returns (`.ok`)
`none` whenever the `process_uuid` trait is unset (`None` or empty), returns
`none` when the database holds no node under the uuid (the `NotExistent`
raised by `load_node` is caught), and otherwise returns the loaded node. -/
theorem results_get_process_node_spec (db : Database) (m : ResultsModel) :
    (∃ r, m.get_process_node db = .ok r) ∧
    ((m.process_uuid = none ∨ m.process_uuid = some "") →
      m.get_process_node db = .ok none) ∧
    (∀ u, m.process_uuid = some u → u ≠ "" →
      m.get_process_node db = .ok (db u)) := by
  rcases m with ⟨uuid⟩
  rcases uuid with _ | u
  · exact ⟨⟨none, rfl⟩, fun _ => rfl, fun u hu => by cases hu⟩
  · by_cases hu : u = ""
    · subst hu
      refine ⟨⟨none, rfl⟩, fun _ => rfl, ?_⟩
      intro v hv hne
      cases hv
      exact absurd rfl hne
    · have htruthy : (ResultsModel.uuid_truthy ⟨some u⟩) = true := by
        simp [ResultsModel.uuid_truthy, hu]
      refine ⟨?_, ?_, ?_⟩
      · cases hdb : db u
        · exact ⟨none, by
            simp [ResultsModel.get_process_node, htruthy, load_node, hdb,
              Except.map]⟩
        · next node =>
          exact ⟨some node, by
            simp [ResultsModel.get_process_node, htruthy, load_node, hdb,
              Except.map]⟩
      · intro h
        rcases h with h | h
        · cases h
        · cases h
          exact absurd rfl hu
      · intro v hv hne
        cases hv
        cases hdb : db u
        all_goals
          simp [ResultsModel.get_process_node, htruthy, load_node, hdb,
            Except.map]

/-- Concrete process node used by the C4 and C5 witnesses. -/
def nodeW : ProcessNode :=
  { exit_status := some 300, called_descendants := [], workchain_report := "r" }

/-- Concrete database used by the C4 witness: one node under uuid "abc". -/
def dbW : Database :=
  fun u => if u = "abc" then some nodeW else none

/-- Witness for C4 at a concrete database: a present uuid loads the node, a
missing uuid and an unset uuid both give `none`, all without raising. -/
theorem results_get_process_node_witness :
    (ResultsModel.get_process_node dbW ⟨some "abc"⟩ = .ok (some nodeW)) ∧
    (ResultsModel.get_process_node dbW ⟨some "missing"⟩ = .ok none) ∧
    (ResultsModel.get_process_node dbW ⟨none⟩ = .ok none) :=
  ⟨by
    have h := (results_get_process_node_spec dbW ⟨some "abc"⟩).2.2 "abc" rfl
      (by decide)
    simpa [dbW] using h,
   by
    have h := (results_get_process_node_spec dbW ⟨some "missing"⟩).2.2
      "missing" rfl (by decide)
    simpa [dbW] using h,
   (results_get_process_node_spec dbW ⟨none⟩).2.1 (Or.inl rfl)⟩

/-- The head of a filtered-mapped list is its first hit. -/
theorem head?_filterMap_eq_findSome? {α β : Type} (f : α → Option β)
    (l : List α) : (l.filterMap f).head? = l.findSome? f := by
  induction l with
  | nil => rfl
  | cons x xs ih =>
    cases hfx : f x <;>
      simp [List.filterMap_cons, List.findSome?_cons, hfx, ih]

/-- The last element of a filtered-mapped list is the first hit scanning
from the right. -/
theorem getLast?_filterMap_eq_findSome?_reverse {α β : Type}
    (f : α → Option β) (l : List α) :
    (l.filterMap f).getLast? = l.reverse.findSome? f := by
  rw [List.getLast?_eq_head?_reverse, ← List.filterMap_reverse,
    head?_filterMap_eq_findSome?]

/-- C5: `generate_failure_report` leaves `failed_calculation_report` and
`has_failure_report` untouched unless the process node exists and has a
truthy (nonzero) exit status; when it renders, the exit message handed to
the template is that of the last finished `CalcJobNode` among the called
descendants; and `_get_final_calcjob` is `none` (without raising: it is a
total function into `Option`) when no finished calc job exists. -/
theorem summary_generate_failure_report_spec
    (render : String → Option String → String)
    (fetched : Option ProcessNode) (m : WorkChainSummaryModel) :
    ((fetched = none ∨
      ∃ n, fetched = some n ∧ exitStatusTruthy n.exit_status = false) →
      WorkChainSummaryModel.generate_failure_report render fetched m = .ok m) ∧
    (∀ n cj, fetched = some n → exitStatusTruthy n.exit_status = true →
      WorkChainSummaryModel._get_final_calcjob n = some cj →
      WorkChainSummaryModel.generate_failure_report render fetched m =
        .ok { m with
              failed_calculation_report :=
                render n.workchain_report cj.exit_message
              has_failure_report := true }) ∧
    (∀ n : ProcessNode,
      WorkChainSummaryModel._get_final_calcjob n = lastFinishedCalcjob n) ∧
    (∀ n : ProcessNode,
      (∀ d ∈ n.called_descendants, finishedCalcjob d = none) →
      WorkChainSummaryModel._get_final_calcjob n = none) := by
  refine ⟨?_, ?_, ?_, ?_⟩
  · rintro (h | ⟨n, hn, hfalse⟩)
    · subst h; rfl
    · subst hn
      simp [WorkChainSummaryModel.generate_failure_report, hfalse]
  · intro n cj hn htrue hcj
    subst hn
    simp [WorkChainSummaryModel.generate_failure_report, htrue, hcj]
  · intro n
    exact getLast?_filterMap_eq_findSome?_reverse finishedCalcjob
      n.called_descendants
  · intro n h
    have : n.called_descendants.filterMap finishedCalcjob = [] :=
      List.filterMap_eq_nil_iff.mpr h
    simp [WorkChainSummaryModel._get_final_calcjob, this]

/-- Concrete work chain node for the C5 witness: a failed work chain whose
descendants hold two finished calc jobs (the later one with exit message
"late") and one unfinished calc job after them. -/
def failedNodeW : ProcessNode :=
  { exit_status := some 402
    called_descendants :=
      [.other,
       .calcjob { is_finished := true, exit_message := some "early" },
       .calcjob { is_finished := true, exit_message := some "late" },
       .calcjob { is_finished := false, exit_message := none }]
    workchain_report := "report text" }

/-- Concrete render function for the C5 witness. -/
def renderW : String → Option String → String :=
  fun report msg => report ++ " / " ++ msg.getD "None"

/-- Witness for C5: the failed node renders a report carrying the exit
message of the last finished calc job; an unfailed node leaves the model
untouched; a node with no finished calc job has no final calc job. -/
theorem summary_generate_failure_report_witness :
    (WorkChainSummaryModel.generate_failure_report renderW (some failedNodeW)
      { failed_calculation_report := "", has_failure_report := false } =
      .ok { failed_calculation_report :=
              renderW failedNodeW.workchain_report (some "late")
            has_failure_report := true }) ∧
    (WorkChainSummaryModel.generate_failure_report renderW
      (some { failedNodeW with exit_status := some 0 })
      { failed_calculation_report := "", has_failure_report := false } =
      .ok { failed_calculation_report := "", has_failure_report := false }) ∧
    (WorkChainSummaryModel._get_final_calcjob
      { failedNodeW with
        called_descendants :=
          [.other, .calcjob { is_finished := false, exit_message := none }] } =
      none) :=
  ⟨(summary_generate_failure_report_spec renderW (some failedNodeW) _).2.1
      failedNodeW { is_finished := true, exit_message := some "late" }
      rfl (by decide) (by decide),
   (summary_generate_failure_report_spec renderW _ _).1
      (Or.inr ⟨_, rfl, by decide⟩),
   (summary_generate_failure_report_spec renderW none
      { failed_calculation_report := "", has_failure_report := false }).2.2.2
      _ (by decide)⟩

/-- C6: both observers of the structure-step model re-run `_update_state`,
after which the step state is `SUCCESS` exactly when the model is confirmed,
`READY` when unconfirmed without a structure, `CONFIGURED` when unconfirmed
with one; and the confirm button is enabled (not disabled) exactly in the
`CONFIGURED` state. -/
theorem structure_selection_step_state_spec (model : StructureStepModel)
    (step step' : StructureSelectionStep) :
    (step' = StructureSelectionStep._on_input_structure_change model step ∨
     step' = StructureSelectionStep._on_confirmation_change model step) →
    ((step'.state = .SUCCESS ↔ model.confirmed = true) ∧
     (model.confirmed = false → model.input_structure = none →
       step'.state = .READY) ∧
     (∀ s, model.confirmed = false → model.input_structure = some s →
       step'.state = .CONFIGURED) ∧
     (confirm_button_disabled step' = false ↔ step'.state = .CONFIGURED)) := by
  intro hstep
  have hstep' : step' = StructureSelectionStep._update_state model step := by
    rcases hstep with h | h <;> exact h
  subst hstep'
  rcases model with ⟨confirmed, istruct⟩
  cases confirmed <;> rcases istruct with _ | s <;>
    simp [StructureSelectionStep._update_state, confirm_button_disabled]

/-- Witness for C6 at the three concrete model states. -/
theorem structure_selection_step_state_witness :
    ((StructureSelectionStep._on_input_structure_change
        { confirmed := false, input_structure := none }
        { state := .SUCCESS }).state = .READY) ∧
    ((StructureSelectionStep._on_input_structure_change
        { confirmed := false, input_structure := some { kind_names := ["Si"] } }
        { state := .READY }).state = .CONFIGURED) ∧
    ((StructureSelectionStep._on_confirmation_change
        { confirmed := true, input_structure := some { kind_names := ["Si"] } }
        { state := .CONFIGURED }).state = .SUCCESS) ∧
    (confirm_button_disabled
      (StructureSelectionStep._on_input_structure_change
        { confirmed := false, input_structure := some { kind_names := ["Si"] } }
        { state := .READY }) = false) :=
  ⟨(structure_selection_step_state_spec _ _ _ (Or.inl rfl)).2.1 rfl rfl,
   (structure_selection_step_state_spec _ _ _ (Or.inl rfl)).2.2.1
      { kind_names := ["Si"] } rfl rfl,
   (structure_selection_step_state_spec _ _ _ (Or.inr rfl)).1.mpr rfl,
   by
    have h := (structure_selection_step_state_spec
      { confirmed := false, input_structure := some { kind_names := ["Si"] } }
      { state := .READY } _ (Or.inl rfl))
    exact h.2.2.2.mpr (h.2.2.1 { kind_names := ["Si"] } rfl rfl)⟩

mutual

/-- Every node of a recursively expanded tree is open with a minus icon. -/
theorem TreeNode.expandAll_marks :
    ∀ n : TreeNode, ∀ m ∈ (TreeNode.expandAll n).allNodes,
      m.branchesOpen = true ∧ m.toggleIcon = "minus"
  | .node _ _ bs, m, hm => by
    simp only [TreeNode.expandAll, TreeNode.allNodes, List.mem_cons] at hm
    rcases hm with h | h
    · subst h; exact ⟨rfl, rfl⟩
    · exact TreeNode.expandAllList_marks bs m h

/-- Every node of a recursively expanded branch list is open with a minus
icon. -/
theorem TreeNode.expandAllList_marks :
    ∀ l : List TreeNode,
      ∀ m ∈ TreeNode.allNodesList (TreeNode.expandAllList l),
        m.branchesOpen = true ∧ m.toggleIcon = "minus"
  | [], m, hm => by
    simp [TreeNode.expandAllList, TreeNode.allNodesList] at hm
  | b :: bs, m, hm => by
    simp only [TreeNode.expandAllList, TreeNode.allNodesList,
      List.mem_append] at hm
    rcases hm with h | h
    · exact TreeNode.expandAll_marks b m h
    · exact TreeNode.expandAllList_marks bs m h

end

mutual

/-- Every node of a recursively collapsed tree is closed with a plus
icon. -/
theorem TreeNode.collapseAll_marks :
    ∀ n : TreeNode, ∀ m ∈ (TreeNode.collapseAll n).allNodes,
      m.branchesOpen = false ∧ m.toggleIcon = "plus"
  | .node _ _ bs, m, hm => by
    simp only [TreeNode.collapseAll, TreeNode.allNodes, List.mem_cons] at hm
    rcases hm with h | h
    · subst h; exact ⟨rfl, rfl⟩
    · exact TreeNode.collapseAllList_marks bs m h

/-- Every node of a recursively collapsed branch list is closed with a plus
icon. -/
theorem TreeNode.collapseAllList_marks :
    ∀ l : List TreeNode,
      ∀ m ∈ TreeNode.allNodesList (TreeNode.collapseAllList l),
        m.branchesOpen = false ∧ m.toggleIcon = "plus"
  | [], m, hm => by
    simp [TreeNode.collapseAllList, TreeNode.allNodesList] at hm
  | b :: bs, m, hm => by
    simp only [TreeNode.collapseAllList, TreeNode.allNodesList,
      List.mem_append] at hm
    rcases hm with h | h
    · exact TreeNode.collapseAll_marks b m h
    · exact TreeNode.collapseAllList_marks bs m h

end

/-- Recursive expansion coincides with `expandAll`. -/
theorem TreeNode.expand_true_eq (n : TreeNode) :
    n.expand true = n.expandAll := by
  cases n
  simp [TreeNode.expand, TreeNode.expandAll]

/-- Recursive collapse coincides with `collapseAll`. -/
theorem TreeNode.collapse_true_eq (n : TreeNode) :
    n.collapse true = n.collapseAll := by
  cases n
  simp [TreeNode.collapse, TreeNode.collapseAll]

/-- C7: collapse after expand restores the collapsed state (no `open` class,
`plus` icon) and expand after collapse restores the expanded state (`open`
class, `minus` icon); with `recursive=true`, every node of the resulting
tree — the root and all its descendants — carries the expanded (resp.
collapsed) marks. -/
theorem tree_expand_collapse_spec (n : TreeNode) :
    (((n.expand false).collapse false).collapsed = true ∧
     ((n.expand false).collapse false).toggleIcon = "plus") ∧
    (((n.collapse false).expand false).collapsed = false ∧
     ((n.collapse false).expand false).toggleIcon = "minus") ∧
    (∀ m ∈ (n.expand true).allNodes,
      m.branchesOpen = true ∧ m.toggleIcon = "minus") ∧
    (∀ m ∈ (n.collapse true).allNodes,
      m.branchesOpen = false ∧ m.toggleIcon = "plus") := by
  refine ⟨?_, ?_, ?_, ?_⟩
  · cases n with
    | node o i bs =>
      exact ⟨rfl, rfl⟩
  · cases n with
    | node o i bs =>
      exact ⟨rfl, rfl⟩
  · rw [TreeNode.expand_true_eq]
    exact TreeNode.expandAll_marks n
  · rw [TreeNode.collapse_true_eq]
    exact TreeNode.collapseAll_marks n

/-- Concrete two-level tree for the C7 witness. -/
def treeW : TreeNode :=
  .node false "plus" [.node false "plus" [], .node true "minus" []]

/-- Witness for C7 on a concrete two-level tree: the round trips restore the
collapsed and expanded marks, and recursive expansion (resp. collapse)
reaches the deepest branch. -/
theorem tree_expand_collapse_witness :
    ((((treeW.expand false).collapse false).collapsed = true) ∧
     (((treeW.collapse false).expand false).collapsed = false)) ∧
    ((TreeNode.node true "minus" []).branchesOpen = true ∧
     (TreeNode.node true "minus" []).toggleIcon = "minus") ∧
    ((TreeNode.node false "plus" []).branchesOpen = false ∧
     (TreeNode.node false "plus" []).toggleIcon = "plus") :=
  ⟨⟨(tree_expand_collapse_spec treeW).1.1,
    (tree_expand_collapse_spec treeW).2.1.1⟩,
   (tree_expand_collapse_spec treeW).2.2.1 (TreeNode.node true "minus" [])
     (by
       simp [treeW, TreeNode.expand, TreeNode.expandAll,
         TreeNode.expandAllList, TreeNode.allNodes, TreeNode.allNodesList]),
   (tree_expand_collapse_spec treeW).2.2.2 (TreeNode.node false "plus" [])
     (by
       simp [treeW, TreeNode.collapse, TreeNode.collapseAll,
         TreeNode.collapseAllList, TreeNode.allNodes, TreeNode.allNodesList])⟩

/-- C8: after `update_library_options`, under spin-orbit coupling
(`spin_orbit == "soc"`) the library options are exactly the two PseudoDojo
entries and the help message is the SOC text; otherwise the options are the
four SSSP/PseudoDojo entries and the help message is the ordinary text —
regardless of the oracle supplying the protocol pseudo family (the trailing
`update_family_parameters` call touches neither trait). -/
theorem pseudos_update_library_options_spec (oracle : PseudoFamilyOracle)
    (m : PseudosModel) :
    (m.spin_orbit = "soc" →
      (m.update_library_options oracle).library_options =
        ["PseudoDojo standard", "PseudoDojo stringent"] ∧
      (m.update_library_options oracle).family_help_message =
        PSEUDO_HELP_SOC) ∧
    (m.spin_orbit ≠ "soc" →
      (m.update_library_options oracle).library_options =
        ["SSSP efficiency", "SSSP precision",
         "PseudoDojo standard", "PseudoDojo stringent"] ∧
      (m.update_library_options oracle).family_help_message =
        PSEUDO_HELP_WO_SOC) := by
  constructor
  · intro hsoc
    constructor
    all_goals
      simp [PseudosModel.update_library_options,
        PseudosModel.update_family_parameters, hsoc]
  · intro hno
    constructor
    all_goals
      simp [PseudosModel.update_library_options,
        PseudosModel.update_family_parameters, hno]

/-- Concrete pseudos model used by the C8 and C9 witnesses. -/
def pseudosModelW : PseudosModel :=
  { input_structure := none
    protocol := "moderate"
    spin_orbit := "soc"
    dictionary := [("Si", "uuid-si")]
    family := "SSSP/1.3/PBEsol/efficiency"
    functional := "PBEsol"
    library := "SSSP efficiency"
    library_options :=
      ["SSSP efficiency", "SSSP precision",
       "PseudoDojo standard", "PseudoDojo stringent"]
    cutoffs := ([30], [240])
    status_message := ""
    family_help_message := PSEUDO_HELP_WO_SOC
    _status_message := none
    defaults :=
      { family := "SSSP/1.3/PBEsol/efficiency"
        functional := "PBEsol"
        library := "SSSP efficiency"
        library_options :=
          ["SSSP efficiency", "SSSP precision",
           "PseudoDojo standard", "PseudoDojo stringent"]
        dictionary := []
        cutoffs := ([0], [0]) } }

/-- Concrete oracle used by the C8 witness. -/
def oracleW : PseudoFamilyOracle :=
  { protocol_pseudo_family := fun _ => "SSSP/1.3/PBEsol/efficiency"
    from_string := fun _ =>
      { library := "SSSP", functional := "PBEsol", accuracy := "efficiency" } }

/-- Witness for C8 at a SOC model and its non-SOC variant. -/
theorem pseudos_update_library_options_witness :
    ((pseudosModelW.update_library_options oracleW).library_options =
      ["PseudoDojo standard", "PseudoDojo stringent"] ∧
     (pseudosModelW.update_library_options oracleW).family_help_message =
      PSEUDO_HELP_SOC) ∧
    (({ pseudosModelW with spin_orbit := "wo_soc" }.update_library_options
        oracleW).library_options =
      ["SSSP efficiency", "SSSP precision",
       "PseudoDojo standard", "PseudoDojo stringent"] ∧
     ({ pseudosModelW with spin_orbit := "wo_soc" }.update_library_options
        oracleW).family_help_message = PSEUDO_HELP_WO_SOC) :=
  ⟨(pseudos_update_library_options_spec oracleW pseudosModelW).1 rfl,
   (pseudos_update_library_options_spec oracleW
      { pseudosModelW with spin_orbit := "wo_soc" }).2 (by decide)⟩

/-- C9: on every error branch of `update_default_pseudos` and
`update_default_cutoffs`, the public `status_message` trait is unchanged —
the error div lands in the separate instance attribute `_status_message` —
and in `update_default_pseudos` the `dictionary` trait is also unchanged;
`update_default_cutoffs` additionally leaves the `cutoffs` trait
unchanged on those branches (the exception it then raises aborts before any
trait write). -/
theorem pseudos_error_branches_preserve_traits (m : PseudosModel) :
    (∀ msg,
      (PseudosModel.update_default_pseudos (.valueError msg) m).status_message
        = m.status_message ∧
      (PseudosModel.update_default_pseudos (.valueError msg) m).dictionary
        = m.dictionary ∧
      (PseudosModel.update_default_pseudos (.valueError msg) m)._status_message
        = some (pseudosErrorDiv msg)) ∧
    ((PseudosModel.update_default_cutoffs .notExistent m).1.status_message
        = m.status_message ∧
     (PseudosModel.update_default_cutoffs .notExistent m).1.cutoffs
        = m.cutoffs ∧
     (PseudosModel.update_default_cutoffs .notExistent m).1._status_message
        = some (cutoffsNotExistentDiv m.family) ∧
     (PseudosModel.update_default_cutoffs .notExistent m).2
        = some .unboundLocal) ∧
    (∀ fam msg,
      (PseudosModel.update_default_cutoffs (.valueError fam msg)
        m).1.status_message = m.status_message ∧
      (PseudosModel.update_default_cutoffs (.valueError fam msg)
        m).1.cutoffs = m.cutoffs ∧
      (PseudosModel.update_default_cutoffs (.valueError fam msg)
        m).1._status_message = some (cutoffsValueErrorDiv fam msg) ∧
      (PseudosModel.update_default_cutoffs (.valueError fam msg) m).2
        = some .unboundLocal) :=
  ⟨fun _ => ⟨rfl, rfl, rfl⟩,
   ⟨rfl, rfl, rfl, rfl⟩,
   fun _ _ => ⟨rfl, rfl, rfl, rfl⟩⟩

/-- C10: on upload of a pseudopotential whose element (after stripping
digits from the widget's element label) differs from the label, the widget
sets `error_message` and resets `pseudo` to `None` and `cutoffs` to the
empty list; on a match, `pseudo` holds the uploaded `UpfData` and the
`pseudo_text` value is the uploaded file name. -/
theorem pseudo_upload_on_file_upload_spec (w : PseudoUploadWidget)
    (filename uploaded_element : String) :
    (stripDigits w.element ≠ uploaded_element →
      ((w._on_file_upload filename uploaded_element).error_message =
        some (uploadMismatchDiv w.element uploaded_element) ∧
       (w._on_file_upload filename uploaded_element).pseudo = none ∧
       (w._on_file_upload filename uploaded_element).cutoffs = [])) ∧
    (stripDigits w.element = uploaded_element →
      ((w._on_file_upload filename uploaded_element).pseudo =
        some { element := uploaded_element, filename := filename } ∧
       (w._on_file_upload filename uploaded_element).pseudo_text_value =
        filename)) := by
  constructor
  · intro hne
    refine ⟨?_, ?_, ?_⟩
    all_goals
      simp [PseudoUploadWidget._on_file_upload, PseudoUploadWidget._reset, hne]
  · intro heq
    refine ⟨?_, ?_⟩
    all_goals
      simp [PseudoUploadWidget._on_file_upload, PseudoUploadWidget._reset, heq]

/-- Witness for C10: uploading an oxygen pseudo to an "Fe2" widget errors
and resets; uploading an iron pseudo succeeds and shows the file name. -/
theorem pseudo_upload_on_file_upload_witness :
    let wid : PseudoUploadWidget :=
      { element := "Fe2", pseudo := none, cutoffs := [30],
        error_message := none, pseudo_text_value := "" }
    ((wid._on_file_upload "O.upf" "O").error_message =
      some (uploadMismatchDiv "Fe2" "O") ∧
     (wid._on_file_upload "O.upf" "O").pseudo = none ∧
     (wid._on_file_upload "O.upf" "O").cutoffs = []) ∧
    ((wid._on_file_upload "Fe.upf" "Fe").pseudo =
      some { element := "Fe", filename := "Fe.upf" } ∧
     (wid._on_file_upload "Fe.upf" "Fe").pseudo_text_value = "Fe.upf") :=
  ⟨(pseudo_upload_on_file_upload_spec _ "O.upf" "O").1 (by decide),
   (pseudo_upload_on_file_upload_spec _ "Fe.upf" "Fe").2 (by decide)⟩
